import Mathlib

/-!
Shallow embedding of `llama_index/readers/azstorage_blob_changefeed/base.py`
(class `BlobChangeFeedReader`) and proofs about it.

Conventions of the embedding:
* Python exceptions are modelled by `Except PyError`; a raised exception
  propagating out of a loop body aborts the translated recursion with
  `Except.error`.
* The Azure SDK page iterator produced by
  `change_feed_client.list_changes(...).by_page(...)` is the collaborator
  boundary: it is modelled as a list of results, each either a fetched page
  or a transport error raised while advancing the iterator.  The reader's
  code consumes this iterator; it never constructs it.
* Timestamps (`datetime`) are modelled as `Nat`.
* `None`-able Python strings are `Option String`; Python truthiness of a
  string (`if container_name:` / `if continuation_token:`) is modelled
  explicitly: `none` and `some ""` are both falsy.
* Calls to `_download_blob` made by the event handlers are recorded in a
  trace (the list of URL arguments passed), so that "a materialization call
  occurs" is an observable of the model.
-/

/-- A raised Python exception, as visible to the caller of the reader. -/
inductive PyError where
  | typeError : String → PyError
  | transportError : String → PyError
  deriving DecidableEq, Repr

/-- A document produced by the generic loader (`llama_index` `Document`).
Only its identity matters to these proofs. -/
structure Document where
  text : String
  deriving DecidableEq, Repr

/-- A raw change-feed event, a dict in the source.  `eventType` models
`event.get("eventType", "Unknown")`, `subject` models `event.get("subject")`
(assumed present and a string, as in every event the platform emits), and
`dataUrl` models `event.get("data", \x7b\x7d).get("url", "Unknown")`. -/
structure RawEvent where
  eventType : String
  subject : String
  dataUrl : String
  deriving DecidableEq, Repr

/-- One page yielded by the SDK page iterator, together with the
continuation marker the iterator exposes after that page is consumed. -/
structure FeedPage where
  events : List RawEvent
  marker : String
  deriving DecidableEq, Repr

/-- The change-feed collaborator at the boundary used by `fetch_changes`:
`pagesFromStart st` is the page sequence produced by
`list_changes(start_time=st, results_per_page=500).by_page()` and
`pagesFromToken tok` the one produced by
`list_changes(results_per_page=500).by_page(continuation_token=tok)`.
Each element is either a page or a transport error raised while paging. -/
structure ChangeFeedClient where
  pagesFromStart : Option Nat → List (Except PyError FeedPage)
  pagesFromToken : String → List (Except PyError FeedPage)

/-- `re.search(r"/containers/([^/]+)/blobs/(.+)", subject)`, returning
`(group(1), group(2))` on a match.  `stripPref p s` matches the literal `p`
at the start of `s`. -/
def stripPref : List Char → List Char → Option (List Char)
  | [], s => some s
  | _ :: _, [] => none
  | p :: ps, c :: cs => if p = c then stripPref ps cs else none

/-- Attempt the pattern at one fixed start position: the literal
`/containers/`, then a nonempty run of non-slash characters (`[^/]+` is
greedy and cannot cross the following slash), then the literal `/blobs/`,
then at least one character (`(.+)` takes the rest; subjects contain no
newline, so `.` is any character). -/
def matchAt (s : List Char) : Option (String × String) :=
  match stripPref "/containers/".toList s with
  | none => none
  | some s1 =>
      let cont := s1.takeWhile (fun c => c ≠ '/')
      let rest := s1.dropWhile (fun c => c ≠ '/')
      if cont.isEmpty then none
      else
        match stripPref "/blobs/".toList rest with
        | none => none
        | some key => if key.isEmpty then none else some (String.mk cont, String.mk key)

/-- `re.search` semantics: try the pattern at each start position, leftmost
first. -/
def searchSubject : List Char → Option (String × String)
  | [] => none
  | c :: cs =>
      match matchAt (c :: cs) with
      | some r => some r
      | none => searchSubject cs

/-- The subject match computed for each event in `fetch_changes`:
`some (container, blobName)` when the subject matches, else `none`. -/
def matchSubject (s : String) : Option (String × String) :=
  searchSubject s.toList

/-- The per-event filter in the `fetch_changes` loop.  The source skips the
event iff `container_name and event_container_name != container_name`:
a falsy filter (`None` or `""`) keeps everything; otherwise the event is
kept iff the container extracted from its subject equals the filter
(an unmatched subject gives `event_container_name = None`, which differs
from any supplied filter, so the event is skipped). -/
def keepEvent (containerName : Option String) (ev : RawEvent) : Bool :=
  match containerName with
  | none => true
  | some c =>
      if c = "" then true
      else decide ((matchSubject ev.subject).map Prod.fst = some c)

/-- The `for page in page_iterator: for event in page: ...` loop of
`fetch_changes`, accumulating the `events` local.  An exception raised by
the iterator propagates (the `except` clause logs and re-raises), so the
accumulated events are discarded and the error is the call's outcome. -/
def consumePages (containerName : Option String) :
    List (Except PyError FeedPage) → List RawEvent → Except PyError (List RawEvent)
  | [], events => Except.ok events
  | Except.error e :: _, _ => Except.error e
  | Except.ok page :: rest, events =>
      consumePages containerName rest (events ++ page.events.filter (keepEvent containerName))

/-- `BlobChangeFeedReader.fetch_changes`.  The iterator is built from the
continuation token when one is truthy (`if continuation_token:`), in which
case `start_time` is not passed to the SDK at all; otherwise it is built
from `start_time` (with `None` meaning the start of the change log). -/
def fetchChanges (client : ChangeFeedClient) (startTime : Option Nat)
    (continuationToken : Option String) (containerName : Option String) :
    Except PyError (List RawEvent) :=
  let pages :=
    match continuationToken with
    | some tok =>
        if tok = "" then client.pagesFromStart startTime else client.pagesFromToken tok
    | none => client.pagesFromStart startTime
  consumePages containerName pages []

/-- The `TypeError` raised by Python when `self._download_blob(blob_url)` is
evaluated: `_download_blob` declares two required positional parameters
`(container_name, blob_name)` but the call sites in `_handle_blob_created`
and `_handle_blob_updated` pass a single argument, so argument binding
fails before the function body runs. -/
def downloadArityError : PyError :=
  PyError.typeError "download blob missing 1 required positional argument blob name"

/-- `BlobChangeFeedReader._handle_blob_created`: reads the blob URL from the
event and evaluates `self._download_blob(blob_url)`.  The attempted call is
recorded in the trace; the call itself raises `downloadArityError` (see
above), which propagates out of the handler. -/
def handleBlobCreated (ev : RawEvent) : Except PyError Unit × List String :=
  (Except.error downloadArityError, [ev.dataUrl])

/-- `BlobChangeFeedReader._handle_blob_deleted`: logs only; it performs no
download and produces nothing. -/
def handleBlobDeleted (_ev : RawEvent) : Except PyError Unit × List String :=
  (Except.ok (), [])

/-- `BlobChangeFeedReader._handle_blob_updated`: same shape as
`handleBlobCreated`, including the one-argument `_download_blob` call. -/
def handleBlobUpdated (ev : RawEvent) : Except PyError Unit × List String :=
  (Except.error downloadArityError, [ev.dataUrl])

/-- `BlobChangeFeedReader.process_event`: dispatch on the event-type string.
`"BlobCreated"` and `"BlobUpdated"` go to the download handlers,
`"BlobDeleted"` to the logging-only handler, and any other value falls to
the `else` branch, which only logs at debug level (no error, no download).
The second component is the trace of URLs passed to `_download_blob`. -/
def processEvent (ev : RawEvent) : Except PyError Unit × List String :=
  if ev.eventType = "BlobCreated" then handleBlobCreated ev
  else if ev.eventType = "BlobDeleted" then handleBlobDeleted ev
  else if ev.eventType = "BlobUpdated" then handleBlobUpdated ev
  else (Except.ok (), [])

/-- The `for event in events: self.process_event(event)` loop of `run`.
Return values of `process_event` are discarded; an exception raised by a
handler aborts the loop and propagates.  `run` has no `return` statement,
so on success its value is Python `None`, modelled as `Option.none` of
`Option (List Document)` (the type its caller `load_data` is annotated to
return). -/
def processAll : List RawEvent → Except PyError (Option (List Document)) × List String
  | [] => (Except.ok none, [])
  | ev :: rest =>
      match processEvent ev with
      | (Except.error e, t) => (Except.error e, t)
      | (Except.ok _, t) =>
          match processAll rest with
          | (r, t2) => (r, t ++ t2)

/-- `BlobChangeFeedReader.run`: fetches the events, then processes each in
order.  The result component is the Python return value; the second
component is the accumulated `_download_blob` call trace. -/
def runReader (client : ChangeFeedClient) (startTime : Option Nat)
    (continuationToken : Option String) (containerName : Option String) :
    Except PyError (Option (List Document)) × List String :=
  match fetchChanges client startTime continuationToken containerName with
  | Except.error e => (Except.error e, [])
  | Except.ok events => processAll events

/-- `BlobChangeFeedReader.load_data`: reads the three optional kwargs and
returns `self.run(...)` — that is, the value of `run`, which is `None`. -/
def loadData (client : ChangeFeedClient) (startTime : Option Nat)
    (continuationToken : Option String) (containerName : Option String) :
    Except PyError (Option (List Document)) × List String :=
  runReader client startTime continuationToken containerName

/-- Effect of a `fetch_changes` / `run` / `load_data` call on the reader
object's stored attributes, as observed through any token-like attribute a
caller reads after the call.  The bodies of these methods contain no
assignment to any instance attribute — in particular `continuation_token`
is neither a declared field of `BlobChangeFeedReader` nor ever assigned —
so whatever token the caller could observe after the call is exactly what
it was before. -/
def tokenAfterWalk (tokenBefore : Option String) : Option String :=
  tokenBefore

/-- A client whose iterator yields a single page (both from a start time
and from a token), used to build concrete scenarios. -/
def onePageClient (evs : List RawEvent) (marker : String) : ChangeFeedClient where
  pagesFromStart := fun _ => [Except.ok ⟨evs, marker⟩]
  pagesFromToken := fun _ => [Except.ok ⟨evs, marker⟩]

/-- `get_metadata` needs a model of Python scalar/dict values. -/
inductive PyVal where
  | str : String → PyVal
  | num : Nat → PyVal
  | dict : List (String × PyVal) → PyVal
  | datetime : Nat → Nat → Nat → PyVal

/-- Python `d.get(k, default)` on a dict modelled as an association list. -/
def dictGet (d : List (String × PyVal)) (k : String) (default : PyVal) : PyVal :=
  match d.lookup k with
  | some v => v
  | none => default

/-- The `get_metadata` closure defined inside `_download_blob`: given the
blob properties fetched from the SDK, it returns
`blob_metadata.get(file_name, \x7b\x7d)` — a lookup of the file name used
as a key in the properties mapping, defaulting to an empty dict.  This is
the value `SimpleDirectoryReader` attaches as each produced document's
metadata. -/
def getMetadata (blobMetadata : List (String × PyVal)) (fileName : String) : PyVal :=
  dictGet blobMetadata fileName (PyVal.dict [])

/-- Whether a Python value is a dict containing the given key. -/
def hasKey : PyVal → String → Bool
  | PyVal.dict d, k => (d.lookup k).isSome
  | _, _ => false

-- Sanity examples (subject regex behaviour)
example : matchSubject "/containers/c1/blobs/a.txt" = some ("c1", "a.txt") := by decide
example : matchSubject "/containers/c1/blobs/dir/a.txt" = some ("c1", "dir/a.txt") := by decide
example : matchSubject "nonsense" = none := by decide
example : matchSubject "/containers//blobs/a" = none := by decide
example : matchSubject "/containers/x/containers/a/blobs/k" = some ("a", "k") := by decide

/-! ## Claim theorems -/

/-- Claim C4: `process_event` maps the event-type string as follows:
`"BlobCreated"` and `"BlobUpdated"` take the upsert path, which invokes the
materialization routine `_download_blob` (once, with the event's blob URL;
the invocation itself raises the arity `TypeError` recorded in
`downloadArityError` — see C10 — but it is the materialization trigger);
`"BlobDeleted"` takes the deleted path, which downloads nothing and raises
nothing; any other value is silently skipped: no error, no download. -/
theorem processEvent_eventType_mapping (ev : RawEvent) :
    ((ev.eventType = "BlobCreated" ∨ ev.eventType = "BlobUpdated") →
        processEvent ev = (Except.error downloadArityError, [ev.dataUrl]))
    ∧ (ev.eventType = "BlobDeleted" →
        processEvent ev = (Except.ok (), []))
    ∧ (ev.eventType ≠ "BlobCreated" → ev.eventType ≠ "BlobUpdated" →
        ev.eventType ≠ "BlobDeleted" →
        processEvent ev = (Except.ok (), [])) := by
  refine ⟨fun h => ?_, fun h => ?_, fun h1 h2 h3 => ?_⟩
  · rcases h with h | h <;>
      simp [processEvent, h, handleBlobCreated, handleBlobUpdated]
  · simp [processEvent, h, handleBlobDeleted]
  · simp [processEvent, h1, h2, h3]

/-- Witness for C4 at concrete events of each class. -/
theorem processEvent_eventType_mapping_witness :
    processEvent ⟨"BlobCreated", "/containers/c/blobs/k", "u1"⟩
        = (Except.error downloadArityError, ["u1"])
    ∧ processEvent ⟨"BlobDeleted", "/containers/c/blobs/k", "u2"⟩
        = (Except.ok (), [])
    ∧ processEvent ⟨"BlobTierChanged", "/containers/c/blobs/k", "u3"⟩
        = (Except.ok (), []) :=
  ⟨(processEvent_eventType_mapping ⟨"BlobCreated", "/containers/c/blobs/k", "u1"⟩).1
      (Or.inl rfl),
   (processEvent_eventType_mapping ⟨"BlobDeleted", "/containers/c/blobs/k", "u2"⟩).2.1 rfl,
   (processEvent_eventType_mapping ⟨"BlobTierChanged", "/containers/c/blobs/k", "u3"⟩).2.2
      (by decide) (by decide) (by decide)⟩

/-- Claim C5: processing a `"BlobDeleted"` event never triggers
materialization: `_handle_blob_deleted` only logs, so the download-call
trace is empty (no object content is requested) and the handler returns
normally without producing any document (its Python value is `None`, and
`process_event` discards handler values anyway, so nothing reaches the
walk's output for this event). -/
theorem deleted_event_never_materializes (ev : RawEvent)
    (h : ev.eventType = "BlobDeleted") :
    (processEvent ev).2 = [] ∧ (processEvent ev).1 = Except.ok () := by
  simp [processEvent, h, handleBlobDeleted]

/-- Witness for C5 at a concrete deleted event. -/
theorem deleted_event_never_materializes_witness :
    (processEvent ⟨"BlobDeleted", "/containers/c1/blobs/b.txt", "u"⟩).2 = []
    ∧ (processEvent ⟨"BlobDeleted", "/containers/c1/blobs/b.txt", "u"⟩).1
        = Except.ok () :=
  deleted_event_never_materializes ⟨"BlobDeleted", "/containers/c1/blobs/b.txt", "u"⟩ rfl

/-- Claim C10: for every `"BlobCreated"` or `"BlobUpdated"` event,
`process_event` raises a `TypeError`: `_handle_blob_created` and
`_handle_blob_updated` evaluate `self._download_blob(blob_url)`, a
one-argument call to a method declaring two required positional parameters
`(container_name, blob_name)`, so Python argument binding raises before the
download body can run.  Hence no upsert event is ever materialized
successfully through `process_event`. -/
theorem upsert_event_always_type_errors (ev : RawEvent)
    (h : ev.eventType = "BlobCreated" ∨ ev.eventType = "BlobUpdated") :
    (processEvent ev).1
      = Except.error (PyError.typeError
          "download blob missing 1 required positional argument blob name") := by
  rcases h with h | h <;>
    simp [processEvent, h, handleBlobCreated, handleBlobUpdated, downloadArityError]

/-- Witness for C10 at a concrete created event. -/
theorem upsert_event_always_type_errors_witness :
    (processEvent ⟨"BlobCreated", "/containers/c1/blobs/a.txt", "u"⟩).1
      = Except.error (PyError.typeError
          "download blob missing 1 required positional argument blob name") :=
  upsert_event_always_type_errors ⟨"BlobCreated", "/containers/c1/blobs/a.txt", "u"⟩
    (Or.inl rfl)

/-- Claim C7: when a (nonempty, hence Python-truthy) resumption token is
supplied, `fetch_changes` builds the page iterator from the token and does
not pass `start_time` to the SDK at all, so any supplied `start_time` is
ignored and pagination resumes from the token's position; with no token the
iterator is built from `start_time`, and with both absent it is built from
`start_time = None`, which the change-feed SDK interprets as the log's
earliest point.  (An empty-string token is Python-falsy and is treated as
no token supplied.) -/
theorem token_overrides_start_time (client : ChangeFeedClient) (t : Nat)
    (tok : String) (cn : Option String) (htok : tok ≠ "") :
    fetchChanges client (some t) (some tok) cn
        = fetchChanges client none (some tok) cn
    ∧ fetchChanges client (some t) (some tok) cn
        = consumePages cn (client.pagesFromToken tok) []
    ∧ (∀ st : Option Nat,
        fetchChanges client st none cn
          = consumePages cn (client.pagesFromStart st) []) := by
  refine ⟨?_, ?_, fun st => ?_⟩ <;> simp [fetchChanges, htok]

/-- Witness for C7: a concrete client on which both invocations are run. -/
theorem token_overrides_start_time_witness :
    fetchChanges (onePageClient [⟨"BlobDeleted", "/containers/c1/blobs/b.txt", "u"⟩] "m")
        (some 5) (some "tok1") none
      = fetchChanges (onePageClient [⟨"BlobDeleted", "/containers/c1/blobs/b.txt", "u"⟩] "m")
        none (some "tok1") none :=
  (token_overrides_start_time
      (onePageClient [⟨"BlobDeleted", "/containers/c1/blobs/b.txt", "u"⟩] "m")
      5 "tok1" none (by decide)).1

/-- Concrete one-page scenario: a single deleted-blob event, page marker
`"test-token"`. -/
def pageDel : FeedPage :=
  ⟨[⟨"BlobDeleted", "/containers/c1/blobs/b.txt", "https://acct/c1/b.txt"⟩], "test-token"⟩

/-- Client whose iterator yields exactly `pageDel`. -/
def clientDel : ChangeFeedClient where
  pagesFromStart := fun _ => [Except.ok pageDel]
  pagesFromToken := fun _ => [Except.ok pageDel]

/-- Claim C1 (refuted — the code contradicts its own tests): after a walk
that consumes a page, the reader's held resumption token is NOT updated to
that page's continuation marker.  `fetch_changes`, `run` and `load_data`
never assign any instance attribute (`tokenAfterWalk` is the identity on
the observable token), and `continuation_token` is not even a declared
field of `BlobChangeFeedReader` — yet the repository's own tests assert
`reader.continuation_token == "test-token"` after a fetch.  Here the page
`pageDel` is fully consumed (its event is returned and processed without
error), while the token a caller observes afterwards is still `none`, not
the page's marker. -/
theorem token_not_updated_after_page :
    fetchChanges clientDel none none none = Except.ok pageDel.events
    ∧ (runReader clientDel none none none).1 = Except.ok none
    ∧ tokenAfterWalk none = (none : Option String)
    ∧ (none : Option String) ≠ some pageDel.marker := by
  refine ⟨rfl, rfl, rfl, ?_⟩
  intro h
  cases h

/-- Claim C2 (refuted — the code contradicts its own type annotation and
tests): the walk does not return the sequence of produced document records.
`run` has no `return` statement, so it evaluates to Python `None`, and
`load_data` returns `self.run(...)`, i.e. also `None` (the handlers
additionally discard whatever `_download_blob` would return).  On a feed
whose one page holds a single deleted-blob event — which processes without
error — `load_data` returns `None` rather than any list of documents. -/
theorem load_data_returns_no_documents :
    (runReader clientDel none none none).1 = Except.ok none
    ∧ loadData clientDel none none none = runReader clientDel none none none
    ∧ ∀ ds : List Document,
        (loadData clientDel none none none).1 ≠ Except.ok (some ds) := by
  refine ⟨rfl, rfl, fun ds h => ?_⟩
  have h2 : (Except.ok (none : Option (List Document))
      : Except PyError (Option (List Document))) = Except.ok (some ds) := h
  cases h2

/-- An event whose subject does not match `/containers/.../blobs/...`. -/
def evBadSubject : RawEvent :=
  ⟨"BlobCreated", "nonsense", "https://acct/unknown"⟩

/-- Client whose iterator yields one page holding only `evBadSubject`. -/
def clientBadSubject : ChangeFeedClient where
  pagesFromStart := fun _ => [Except.ok ⟨[evBadSubject], "m3"⟩]
  pagesFromToken := fun _ => [Except.ok ⟨[evBadSubject], "m3"⟩]

/-- Counterexample to claim C3 as stated: a record whose subject does not
match the pattern (classification yields `none`) is NOT always dropped.
When no container filter is supplied, the `fetch_changes` loop's only skip
condition (`container_name and ...`) is falsy, so the unmatched record is
kept in the returned events, and `run` then processes it: being a
`"BlobCreated"` event it reaches the upsert handler, which invokes the
materialization routine on its URL.  So, without a filter, the record does
contribute a materialization attempt, contradicting "contributes nothing
... regardless of whether a container filter is supplied". -/
theorem unmatched_subject_kept_without_filter :
    matchSubject evBadSubject.subject = none
    ∧ fetchChanges clientBadSubject none none none = Except.ok [evBadSubject]
    ∧ (runReader clientBadSubject none none none).2 = [evBadSubject.dataUrl]
    ∧ (runReader clientBadSubject none none none).2 ≠ [] := by
  refine ⟨by decide, rfl, rfl, ?_⟩
  intro h
  cases h

/-- Helper for the amended C3: any event surviving `consumePages` under a
nonempty container filter was either in the accumulator already or passed
`keepEvent`. -/
lemma mem_consumePages_ok (c : String)
    (pages : List (Except PyError FeedPage)) :
    ∀ (acc evs : List RawEvent),
      consumePages (some c) pages acc = Except.ok evs →
      ∀ ev ∈ evs, ev ∈ acc ∨ keepEvent (some c) ev = true := by
  induction pages with
  | nil =>
      intro acc evs h ev hev
      cases h
      exact Or.inl hev
  | cons p rest ih =>
      intro acc evs h ev hev
      cases p with
      | error e => cases h
      | ok page =>
          rcases ih _ _ h ev hev with hacc | hkeep
          · rcases List.mem_append.mp hacc with hl | hr
            · exact Or.inl hl
            · exact Or.inr (List.mem_filter.mp hr).2
          · exact Or.inr hkeep

/-- Amended claim C3: when a (nonempty) container filter IS supplied, every
record whose subject fails the pattern contributes nothing: its extracted
container is `None`, which differs from the filter, so `fetch_changes`
skips it — every event in the returned list has a subject that matches the
pattern.  (Without a filter the record is kept and processed like any
other; see the counterexample.) -/
theorem unmatched_subject_dropped_under_filter (client : ChangeFeedClient)
    (st : Option Nat) (tok : Option String) (c : String) (evs : List RawEvent)
    (hc : c ≠ "")
    (h : fetchChanges client st tok (some c) = Except.ok evs) :
    ∀ ev ∈ evs, (matchSubject ev.subject).isSome = true := by
  intro ev hev
  have hk : ev ∈ ([] : List RawEvent) ∨ keepEvent (some c) ev = true := by
    rcases tok with _ | tok
    · exact mem_consumePages_ok c _ _ _ h ev hev
    · simp only [fetchChanges] at h
      by_cases htok : tok = ""
      · rw [if_pos htok] at h
        exact mem_consumePages_ok c _ _ _ h ev hev
      · rw [if_neg htok] at h
        exact mem_consumePages_ok c _ _ _ h ev hev
  rcases hk with hin | hkeep
  · cases hin
  · unfold keepEvent at hkeep
    simp only [hc] at hkeep
    rcases hm : matchSubject ev.subject with _ | pr
    · rw [hm] at hkeep
      simp at hkeep
    · simp [hm]

/-- Witness for the amended C3: on a page holding one matching and one
unmatched-subject event under filter `"c1"`, the surviving event's subject
matches the pattern. -/
theorem unmatched_subject_dropped_under_filter_witness :
    (matchSubject
        (⟨"BlobDeleted", "/containers/c1/blobs/b.txt", "u"⟩ : RawEvent).subject).isSome
      = true :=
  unmatched_subject_dropped_under_filter
    (onePageClient [⟨"BlobDeleted", "/containers/c1/blobs/b.txt", "u"⟩, evBadSubject] "m")
    none none "c1" [⟨"BlobDeleted", "/containers/c1/blobs/b.txt", "u"⟩]
    (by decide) rfl
    ⟨"BlobDeleted", "/containers/c1/blobs/b.txt", "u"⟩ (by simp)

/-- Claim C6: with a (nonempty) container filter supplied, filtering
happens inside the `fetch_changes` paging loop, before `run` performs any
`_download_blob` invocation.  For a one-page feed holding one upsert event
whose subject's container equals the filter and one event whose container
differs (in either order), the walk's download-call trace is exactly the
matching event's URL: one materialization invocation, for the matching
event, none for the other.  (The invocation itself raises the arity
`TypeError` of C10, aborting `run`, but the single attempted call is the
matching one and the non-matching event never reaches the download path.) -/
theorem filter_precedes_materialization (e1 e2 : RawEvent) (c marker : String)
    (hc : c ≠ "")
    (h1 : (matchSubject e1.subject).map Prod.fst = some c)
    (h2 : (matchSubject e2.subject).map Prod.fst ≠ some c)
    (hup : e1.eventType = "BlobCreated" ∨ e1.eventType = "BlobUpdated") :
    (runReader (onePageClient [e1, e2] marker) none none (some c)).2 = [e1.dataUrl]
    ∧ (runReader (onePageClient [e2, e1] marker) none none (some c)).2 = [e1.dataUrl] := by
  have hk1 : keepEvent (some c) e1 = true := by
    simp [keepEvent, hc, h1]
  have hk2 : keepEvent (some c) e2 = false := by
    simp [keepEvent, hc, h2]
  have hfetch1 : fetchChanges (onePageClient [e1, e2] marker) none none (some c)
      = Except.ok [e1] := by
    simp [fetchChanges, onePageClient, consumePages, List.filter, hk1, hk2]
  have hfetch2 : fetchChanges (onePageClient [e2, e1] marker) none none (some c)
      = Except.ok [e1] := by
    simp [fetchChanges, onePageClient, consumePages, List.filter, hk1, hk2]
  have hproc : (processAll [e1]).2 = [e1.dataUrl] := by
    rcases hup with h | h <;>
      simp [processAll, processEvent, h, handleBlobCreated, handleBlobUpdated]
  constructor
  · rw [runReader, hfetch1]
    exact hproc
  · rw [runReader, hfetch2]
    exact hproc

/-- Witness for C6, at the spec's own scenario: created events for
`c1/a.txt` and `c2/d.txt` under filter `"c1"`. -/
theorem filter_precedes_materialization_witness :
    (runReader
        (onePageClient
          [⟨"BlobCreated", "/containers/c1/blobs/a.txt", "https://acct/c1/a.txt"⟩,
           ⟨"BlobCreated", "/containers/c2/blobs/d.txt", "https://acct/c2/d.txt"⟩] "m")
        none none (some "c1")).2
      = ["https://acct/c1/a.txt"] :=
  (filter_precedes_materialization
      ⟨"BlobCreated", "/containers/c1/blobs/a.txt", "https://acct/c1/a.txt"⟩
      ⟨"BlobCreated", "/containers/c2/blobs/d.txt", "https://acct/c2/d.txt"⟩
      "c1" "m" (by decide) (by decide) (by decide) (Or.inl rfl)).1

/-- The blob-properties mapping of the repository's own metadata test
(`test_extract_blob_metadata`), as the SDK would return it. -/
def testBlobProperties : List (String × PyVal) :=
  [("name", PyVal.str "testblob.txt"),
   ("content_settings", PyVal.dict [("content_type", PyVal.str "text/plain")]),
   ("size", PyVal.num 1024),
   ("creation_time", PyVal.datetime 2024 3 5),
   ("last_modified", PyVal.datetime 2024 3 3),
   ("last_accessed_on", PyVal.datetime 2024 3 4),
   ("container", PyVal.str "testcontainer"),
   ("metadata", PyVal.dict [("author", PyVal.str "test")]),
   ("tags", PyVal.dict [("category", PyVal.str "docs")])]

/-- Claim C8 (refuted — the code contradicts its own tests): the metadata
attached to produced documents is not a flat mapping with the keys
`file_name`, `file_type`, `file_size`, `creation_date`,
`last_modified_date`, `last_accessed_date`, `container`, and no date is
formatted at all.  The `get_metadata` callback in `_download_blob` merely
returns `blob_metadata.get(file_name, \x7b\x7d)`; the file name the loader
passes it (a temporary file path) is not a key of the properties mapping,
so the attached metadata is the empty dict, which contains none of the
required keys.  (The tests instead expect an `_extract_blob_metadata`
method building exactly those keys; no such method exists in the class.) -/
theorem metadata_lacks_required_keys :
    getMetadata testBlobProperties "/tmp/tmp123" = PyVal.dict []
    ∧ hasKey (getMetadata testBlobProperties "/tmp/tmp123") "file_name" = false
    ∧ hasKey (getMetadata testBlobProperties "/tmp/tmp123") "file_type" = false
    ∧ hasKey (getMetadata testBlobProperties "/tmp/tmp123") "file_size" = false
    ∧ hasKey (getMetadata testBlobProperties "/tmp/tmp123") "creation_date" = false
    ∧ hasKey (getMetadata testBlobProperties "/tmp/tmp123") "last_modified_date" = false
    ∧ hasKey (getMetadata testBlobProperties "/tmp/tmp123") "last_accessed_date" = false
    ∧ hasKey (getMetadata testBlobProperties "/tmp/tmp123") "container" = false := by
  refine ⟨rfl, rfl, rfl, rfl, rfl, rfl, rfl, rfl⟩

/-- The complete filtered event list a walk over the pages `ps` yields. -/
def keptEvents (containerName : Option String) : List FeedPage → List RawEvent
  | [] => []
  | p :: rest => p.events.filter (keepEvent containerName) ++ keptEvents containerName rest

/-- `consumePages` over error-free pages returns the full accumulated
result. -/
lemma consumePages_all_ok (cn : Option String) (ps : List FeedPage) :
    ∀ acc, consumePages cn (ps.map Except.ok) acc = Except.ok (acc ++ keptEvents cn ps) := by
  induction ps with
  | nil => intro acc; simp [consumePages, keptEvents]
  | cons p rest ih =>
      intro acc
      simp [consumePages, keptEvents, ih, List.append_assoc]

/-- `consumePages` aborts with the first iterator error, discarding the
accumulator. -/
lemma consumePages_first_error (cn : Option String) (ps : List FeedPage)
    (e : PyError) (rest : List (Except PyError FeedPage)) :
    ∀ acc, consumePages cn (ps.map Except.ok ++ Except.error e :: rest) acc
      = Except.error e := by
  induction ps with
  | nil => intro acc; simp [consumePages]
  | cons p tail ih => intro acc; simp [consumePages, ih]

/-- Claim C9: a walk either raises or returns a complete result, never a
partial list.  If the page iterator raises a transport error at any point
(after any number of successfully fetched pages), the `except` clause of
`fetch_changes` re-raises it: the call's outcome is that error, the locally
accumulated events are discarded, and `run` propagates the same error.  If
every page is fetched successfully, `fetch_changes` returns the complete
filtered event list of all pages. -/
theorem walk_raises_or_complete (client : ChangeFeedClient) (st : Option Nat)
    (cn : Option String) :
    (∀ (ps : List FeedPage) (e : PyError) (rest : List (Except PyError FeedPage)),
        client.pagesFromStart st = ps.map Except.ok ++ Except.error e :: rest →
          fetchChanges client st none cn = Except.error e
          ∧ (runReader client st none cn).1 = Except.error e)
    ∧ (∀ ps : List FeedPage,
        client.pagesFromStart st = ps.map Except.ok →
          fetchChanges client st none cn = Except.ok (keptEvents cn ps)) := by
  constructor
  · intro ps e rest hpages
    have hf : fetchChanges client st none cn = Except.error e := by
      simp [fetchChanges, hpages, consumePages_first_error]
    refine ⟨hf, ?_⟩
    rw [runReader, hf]
  · intro ps hpages
    simp [fetchChanges, hpages, consumePages_all_ok]

/-- Witness for C9: a two-page scenario whose second page raises a
transport error; the walk's outcome is that error. -/
theorem walk_raises_or_complete_witness :
    fetchChanges
        ⟨fun _ => [Except.ok pageDel, Except.error (PyError.transportError "boom")],
         fun _ => []⟩ none none none
      = Except.error (PyError.transportError "boom") :=
  ((walk_raises_or_complete
      ⟨fun _ => [Except.ok pageDel, Except.error (PyError.transportError "boom")],
       fun _ => []⟩ none none).1 [pageDel] (PyError.transportError "boom") [] rfl).1
